import Mathlib

/-!
Verification of the content-warning engine of the letterboxd-dtdd browser
extension: vote classification (`categorizeWarning`), the warning ranker
built into `buildPanelHtml` (`rank`), and the identity resolver
(`matchDtddResult`, `findDtddMedia`).  JavaScript values that can be
`undefined`/`null` are embedded as `Option`; arithmetic and comparisons on
possibly-missing numbers follow the JavaScript semantics (a missing operand
makes the sum NaN, and every `<`/`>` comparison with NaN is false).
-/

namespace DTDD

/-- The four category labels produced by `categorizeWarning`. -/
inductive Category where
  | yes
  | no
  | mixed
  | unknown
deriving DecidableEq

/-- Topic descriptor carried by a stat record.  The `isSensitive` flag is part
of the topic data the extension receives; the content script never reads it. -/
structure Topic where
  id : ℕ
  name : String
  doesName : String
  isSensitive : Bool
deriving DecidableEq

/-- A `topicItemStats` record (TopicVote): aggregate yes/no counts for a topic.
`yesSum`/`noSum` are `none` when the field is absent from the record. -/
structure Stat where
  yesSum : Option ℕ
  noSum : Option ℕ
  topic : Option Topic
  comment : Option String
deriving DecidableEq

/-- JavaScript `a + b` on possibly-missing numbers: a missing operand gives
NaN, represented as `none`. -/
def jsAdd : Option ℕ → Option ℕ → Option ℕ
  | some a, some b => some (a + b)
  | _, _ => none

/-- JavaScript `a < b`: false whenever an operand is missing (NaN). -/
def jsLtNum : Option ℕ → Option ℕ → Bool
  | some a, some b => decide (a < b)
  | _, _ => false

/-- JavaScript `a > b`: false whenever an operand is missing (NaN). -/
def jsGtNum (a b : Option ℕ) : Bool := jsLtNum b a

/-- `const MIN_VOTES_THRESHOLD = 5` from content.js. -/
def MIN_VOTES_THRESHOLD : ℕ := 5

/-- `categorizeWarning` from content.js (the debug logging, which only reads
`stat.topic?.doesName`, is dropped). -/
def categorizeWarning (stat : Stat) : Category :=
  let yesSum := stat.yesSum
  let noSum := stat.noSum
  let totalVotes := jsAdd yesSum noSum
  if jsLtNum totalVotes (some MIN_VOTES_THRESHOLD) then Category.unknown
  else if jsGtNum yesSum noSum then Category.yes
  else if jsGtNum noSum yesSum then Category.no
  else Category.mixed

/-- Modelled from the spec: the Wilson score interval classification of §4.2.
The code in src contains no Wilson computation, so this definition follows the
spec's words, to be compared with `categorizeWarning`.  `zsq` is the square of
the configured z-value (z ≥ 0).  With `t = yes + no`, `p = yes/t`,
`denom = 1 + z²/t`, `center = p + z²/(2t)`, `spread = z·sqrt a` where
`a = (p(1-p) + z²/(4t))/t`, the spec's tests `lower > 1/2` and `upper < 1/2`
(the clamps at 0 and 1 never matter against 1/2) are rendered in the
equivalent squared form `x > spread ↔ 0 < x ∧ spread² < x²`, valid because
`spread ≥ 0` and `spread² = zsq·a`. -/
def wilsonCategory (zsq : ℚ) (y n : ℕ) : Category :=
  let t : ℚ := (y : ℚ) + (n : ℚ)
  let p : ℚ := (y : ℚ) / t
  let denom : ℚ := 1 + zsq / t
  let center : ℚ := p + zsq / (2 * t)
  let a : ℚ := (p * (1 - p) + zsq / (4 * t)) / t
  if 0 < center - denom / 2 ∧ zsq * a < (center - denom / 2) ^ 2 then Category.yes
  else if 0 < denom / 2 - center ∧ zsq * a < (denom / 2 - center) ^ 2 then Category.no
  else if n < y then Category.yes
  else if y < n then Category.no
  else Category.mixed

/-- The sort-order table from `buildPanelHtml`:
`warningOrder = \x7b yes: 0, no: 1, mixed: 2, unknown: 2 \x7d` (the `?? 2`
fallback is unreachable since every category has an entry). -/
def warningOrder : Category → ℤ
  | Category.yes => 0
  | Category.no => 1
  | Category.mixed => 2
  | Category.unknown => 2

/-- The spec's `sortRank`: the numeric rank the pinned comparator derives from
a stat, `warningOrder[categorizeWarning(t)]`. -/
def sortRank (s : Stat) : ℤ := warningOrder (categorizeWarning s)

/-- JavaScript `b - a` as a sort-comparator result: a missing operand gives a
NaN comparator value, which `Array.prototype.sort` treats as `+0`. -/
def jsSortNum : Option ℕ → Option ℕ → ℤ
  | some b, some a => (b : ℤ) - (a : ℤ)
  | _, _ => 0

/-- The pinned-list comparator from `buildPanelHtml`: category order first,
then yes-votes descending. -/
def pinnedCmp (a b : Stat) : ℤ :=
  let aOrder := warningOrder (categorizeWarning a)
  let bOrder := warningOrder (categorizeWarning b)
  if aOrder ≠ bOrder then aOrder - bOrder
  else jsSortNum b.yesSum a.yesSum

/-- The automatic-list comparator from `buildPanelHtml`:
`(a, b) => b.yesSum - a.yesSum`. -/
def yesCmp (a b : Stat) : ℤ := jsSortNum b.yesSum a.yesSum

/-- `pinnedIds.has(t.topic?.id)`: a stat with no topic record is never pinned
(`Set.has(undefined)` is false for a set of numeric ids). -/
def isPinned (pinnedIds : List ℕ) (t : Stat) : Bool :=
  match t.topic with
  | some tp => pinnedIds.contains tp.id
  | none => false

/-- The ranking logic of `buildPanelHtml` in the loaded state: the pinned list
(filter by pin membership, stable sort by the pinned comparator) and the
automatic list (filter to non-pinned stats categorized yes, stable sort by
yes-votes descending, `slice(0, 10)`).  JavaScript's stable sort is embedded
as `List.insertionSort` on `comparator ≤ 0`. -/
def rank (topics : List Stat) (pinnedIds : List ℕ) : List Stat × List Stat :=
  let pinnedTopics :=
    List.insertionSort (fun a b => pinnedCmp a b ≤ 0)
      (topics.filter (fun t => isPinned pinnedIds t))
  let yesTopics :=
    (List.insertionSort (fun a b => yesCmp a b ≤ 0)
      (topics.filter
        (fun t => !isPinned pinnedIds t && decide (categorizeWarning t = Category.yes)))).take 10
  (pinnedTopics, yesTopics)

/-- `const DEFAULT_MAX_WARNINGS = 5` from the settings script: the default of
the stored `dtdd-max-warnings` display cap.  The content script never reads
that setting. -/
def DEFAULT_MAX_WARNINGS : ℕ := 5

/-- Six distinct non-pinned stats that all categorize as yes, exceeding the
default display cap. -/
def sixYesStats : List Stat :=
  [⟨some 6, some 0, some ⟨1, "t1", "t1", false⟩, none⟩,
   ⟨some 6, some 0, some ⟨2, "t2", "t2", false⟩, none⟩,
   ⟨some 6, some 0, some ⟨3, "t3", "t3", false⟩, none⟩,
   ⟨some 6, some 0, some ⟨4, "t4", "t4", false⟩, none⟩,
   ⟨some 6, some 0, some ⟨5, "t5", "t5", false⟩, none⟩,
   ⟨some 6, some 0, some ⟨6, "t6", "t6", false⟩, none⟩]

/-- A sensitive pinned stat categorized yes with 5 yes votes. -/
def sensStat : Stat := ⟨some 5, some 0, some ⟨1, "a", "a", true⟩, none⟩

/-- A non-sensitive pinned stat categorized yes with 9 yes votes. -/
def plainStat : Stat := ⟨some 9, some 0, some ⟨2, "b", "b", false⟩, none⟩

/-- `item.itemType` object: only its `name` field is read. -/
structure ItemType where
  name : Option String
deriving DecidableEq

/-- A search-result candidate (CatalogEntry). -/
structure Item where
  id : ℤ
  name : String
  tmdbId : Option ℤ
  releaseYear : Option ℤ
  itemType : Option ItemType
deriving DecidableEq

/-- A `dddsearch` response; `items` is `none` when the field is absent. -/
structure SearchResult where
  items : Option (List Item)
deriving DecidableEq

/-- JavaScript truthiness of a string-or-null value: null and the empty string
are falsy. -/
def strTruthy : Option String → Bool
  | none => false
  | some s => decide (s ≠ "")

/-- JavaScript truthiness of a number-or-undefined value: undefined and 0 are
falsy. -/
def numTruthy : Option ℤ → Bool
  | none => false
  | some v => decide (v ≠ 0)

/-- String conversion of a string-or-null value inside a template literal:
null renders as "null". -/
def jsStrOfOptStr : Option String → String
  | none => "null"
  | some s => s

/-- `String(x)` on a number-or-undefined value: undefined renders as
"undefined". -/
def jsStrOfOptInt : Option ℤ → String
  | none => "undefined"
  | some v => toString v

/-- The candidate scan of `matchDtddResult` (its `for` loop).  `tmdbId` is the
scraped TMDB id (a nonempty digit string or null, so truthiness coincides with
presence and `parseInt` with its value). -/
def matchLoop (expectedType : String) (tmdbId : Option ℕ)
    (title year : Option String) : List Item → Option Item
  | [] => none
  | item :: rest =>
    let itemType := item.itemType.bind ItemType.name
    if strTruthy itemType = true ∧ itemType ≠ some expectedType then
      matchLoop expectedType tmdbId title year rest
    else if tmdbId.isSome = true ∧ item.tmdbId = tmdbId.map (fun k => (k : ℤ)) then
      some item
    else if numTruthy item.tmdbId = true ∧ tmdbId.isSome = true ∧
        item.tmdbId ≠ tmdbId.map (fun k => (k : ℤ)) then
      matchLoop expectedType tmdbId title year rest
    else if (title = some item.name ∨
          item.name = jsStrOfOptStr title ++ " " ++ jsStrOfOptStr year) ∧
        jsStrOfOptInt item.releaseYear = jsStrOfOptStr year then
      some item
    else matchLoop expectedType tmdbId title year rest

/-- `matchDtddResult` from content.js: guard `!result?.items?.length`, expected
type from `isTv`, then the candidate scan. -/
def matchDtddResult (result : Option SearchResult) (tmdbId : Option ℕ)
    (title year : Option String) (isTv : Bool) : Option Item :=
  match result with
  | none => none
  | some r =>
    match r.items with
    | none => none
    | some [] => none
    | some items =>
      let expectedType := if isTv then "TV Show" else "Movie"
      matchLoop expectedType tmdbId title year items

/-- The Tier 1 conflict of `findDtddMedia`, named for the statement of the
claims: the scraped TMDB id is present, the candidate carries a truthy TMDB
id, and the two disagree.  The code's acceptance test
`!tmdbId || !item.tmdbId || item.tmdbId === parseInt(tmdbId)` is exactly the
negation of this. -/
def tier1Conflict (tmdbId : Option ℕ) (item : Item) : Prop :=
  tmdbId.isSome = true ∧ numTruthy item.tmdbId = true ∧
    item.tmdbId ≠ tmdbId.map (fun k => (k : ℤ))

instance (tmdbId : Option ℕ) (item : Item) : Decidable (tier1Conflict tmdbId item) :=
  inferInstanceAs (Decidable (_ ∧ _ ∧ _))

/-- `findDtddMedia` from content.js with the three fetch responses supplied as
oracle arguments `r1 r2 r3` (the page-scraped identifiers are the remaining
arguments).  Tier 1 takes the first candidate of the id search unless the
acceptance test fails; tiers 2 and 3 run `matchDtddResult` on the title and
native-title searches. -/
def findDtddMedia (imdbId : Option String) (tmdbId : Option ℕ) (isTv : Bool)
    (title year nativeTitle : Option String)
    (r1 r2 r3 : Option SearchResult) : Option Item :=
  let d1 : Option Item :=
    if strTruthy imdbId = true then
      match r1 with
      | some { items := some (item :: _) } =>
        if ¬ tier1Conflict tmdbId item then some item else none
      | _ => none
    else none
  let d2 : Option Item :=
    if d1 = none ∧ strTruthy title = true then
      matchDtddResult r2 tmdbId title year isTv
    else d1
  let d3 : Option Item :=
    if d2 = none ∧ strTruthy nativeTitle = true then
      matchDtddResult r3 tmdbId nativeTitle year isTv
    else d2
  d3

end DTDD

namespace DTDD

/-- Helper: `categorizeWarning` on a stat with both counts present. -/
theorem categorize_eval (y n : ℕ) (t : Option Topic) (c : Option String) :
    categorizeWarning ⟨some y, some n, t, c⟩ =
      (if y + n < 5 then Category.unknown
       else if n < y then Category.yes
       else if y < n then Category.no
       else Category.mixed) := by
  simp only [categorizeWarning, jsAdd, jsGtNum, jsLtNum, MIN_VOTES_THRESHOLD,
    decide_eq_true_eq]

/-- Helper: the Wilson classification collapses to the raw comparison, for any
z, because `center - denom/2 = (y - n)/(2t)`. -/
theorem wilson_eq_raw (zsq : ℚ) (y n : ℕ) (h : 0 < y + n) :
    wilsonCategory zsq y n =
      (if n < y then Category.yes else if y < n then Category.no
       else Category.mixed) := by
  have ht0 : (0 : ℚ) < (y : ℚ) + (n : ℚ) := by exact_mod_cast h
  have hne : ((y : ℚ) + (n : ℚ)) ≠ 0 := ne_of_gt ht0
  have h2t : (0 : ℚ) < 2 * ((y : ℚ) + (n : ℚ)) := by linarith
  have key : ((y : ℚ) / ((y : ℚ) + (n : ℚ)) + zsq / (2 * ((y : ℚ) + (n : ℚ))))
      - (1 + zsq / ((y : ℚ) + (n : ℚ))) / 2
      = ((y : ℚ) - (n : ℚ)) / (2 * ((y : ℚ) + (n : ℚ))) := by
    field_simp
    ring
  have key2 : (1 + zsq / ((y : ℚ) + (n : ℚ))) / 2
      - ((y : ℚ) / ((y : ℚ) + (n : ℚ)) + zsq / (2 * ((y : ℚ) + (n : ℚ))))
      = ((n : ℚ) - (y : ℚ)) / (2 * ((y : ℚ) + (n : ℚ))) := by
    field_simp
    ring
  have hsign : ∀ u v : ℕ, (0 < ((u : ℚ) - (v : ℚ)) / (2 * ((y : ℚ) + (n : ℚ)))) ↔ v < u := by
    intro u v
    rw [div_pos_iff]
    constructor
    · rintro (⟨h1, _⟩ | ⟨_, h2⟩)
      · have : (v : ℚ) < (u : ℚ) := by linarith
        exact_mod_cast this
      · linarith
    · intro huv
      left
      have : (v : ℚ) < (u : ℚ) := by exact_mod_cast huv
      exact ⟨by linarith, h2t⟩
  simp only [wilsonCategory, key, key2]
  rcases Nat.lt_trichotomy n y with hlt | heq | hgt <;>
    split_ifs with h1 h2 h3 h4 <;>
    first
      | rfl
      | exact absurd ((hsign _ _).1 h1.1) (by omega)
      | exact absurd ((hsign _ _).1 h2.1) (by omega)
      | exact absurd ((hsign _ _).1 h3.1) (by omega)
      | exact absurd ((hsign _ _).1 h4.1) (by omega)

/-- Helper: a successful candidate scan only returns candidates whose truthy
kind label equals the expected kind. -/
theorem matchLoop_type_eq (expectedType : String) (tmdbId : Option ℕ)
    (title year : Option String) :
    ∀ (items : List Item) (item : Item),
      matchLoop expectedType tmdbId title year items = some item →
      ∀ s : String, item.itemType.bind ItemType.name = some s → s ≠ "" →
        s = expectedType := by
  intro items
  induction items with
  | nil => intro item h; simp [matchLoop] at h
  | cons hd tl ih =>
    intro item h s hs hne
    simp only [matchLoop] at h
    split_ifs at h with h1 h2 h3 h4
    · exact ih item h s hs hne
    · cases h
      by_contra hne2
      exact h1 ⟨by simp [hs, strTruthy, hne], by simp [hs]; exact hne2⟩
    · exact ih item h s hs hne
    · cases h
      by_contra hne2
      exact h1 ⟨by simp [hs, strTruthy, hne], by simp [hs]; exact hne2⟩
    · exact ih item h s hs hne

/-- Helper: a successful candidate scan returns an element of the scanned
list. -/
theorem matchLoop_mem (expectedType : String) (tmdbId : Option ℕ)
    (title year : Option String) :
    ∀ (items : List Item) (item : Item),
      matchLoop expectedType tmdbId title year items = some item → item ∈ items := by
  intro items
  induction items with
  | nil => intro item h; simp [matchLoop] at h
  | cons hd tl ih =>
    intro item h
    simp only [matchLoop] at h
    split_ifs at h with h1 h2 h3 h4
    · exact List.mem_cons_of_mem hd (ih item h)
    · cases h; exact List.mem_cons_self _ _
    · exact List.mem_cons_of_mem hd (ih item h)
    · cases h; exact List.mem_cons_self _ _
    · exact List.mem_cons_of_mem hd (ih item h)

/-- Claim C1: for every TopicVote whose total votes reach the minimum-vote
threshold, `categorizeWarning` returns exactly the category prescribed by the
spec's Wilson-interval procedure (`wilsonCategory`, modelled from the spec):
yes when the interval's lower bound exceeds 0.5, no when the upper bound is
below 0.5, and otherwise the raw comparison fallback (yes > no → yes,
no > yes → no, equal → mixed), for any configured z-value. -/
theorem C1_classify_matches_wilson (zsq : ℚ) (y n : ℕ) (t : Option Topic)
    (c : Option String) (hz : 0 ≤ zsq) (htot : MIN_VOTES_THRESHOLD ≤ y + n) :
    categorizeWarning ⟨some y, some n, t, c⟩ = wilsonCategory zsq y n := by
  have h5 : 5 ≤ y + n := htot
  rw [categorize_eval, wilson_eq_raw zsq y n (by omega), if_neg (by omega : ¬ y + n < 5)]

/-- Witness for C1 at zsq = 1.645² (the default 90 percent z-value squared),
yes = 4, no = 1. -/
theorem C1_classify_matches_wilson_witness :
    categorizeWarning ⟨some 4, some 1, none, none⟩ =
      wilsonCategory (2706025 / 1000000) 4 1 :=
  C1_classify_matches_wilson (2706025 / 1000000) 4 1 none none (by norm_num) (by decide)

/-- Claim C2 counterexample: the claim asserts counts exist for which a
sensitive topic is classified yes or no while a non-sensitive topic with the
same counts is unknown; no such counts exist, since `categorizeWarning` never
reads the sensitive flag. -/
theorem C2_counterexample :
    ¬ ∃ y n : ℕ,
      ((categorizeWarning ⟨some y, some n, some ⟨7, "t", "t", true⟩, none⟩ = Category.yes ∨
        categorizeWarning ⟨some y, some n, some ⟨7, "t", "t", true⟩, none⟩ = Category.no) ∧
       categorizeWarning ⟨some y, some n, some ⟨7, "t", "t", false⟩, none⟩ =
         Category.unknown) := by
  rintro ⟨y, n, hyn, hunk⟩
  have heq : categorizeWarning ⟨some y, some n, some ⟨7, "t", "t", true⟩, none⟩ =
      categorizeWarning ⟨some y, some n, some ⟨7, "t", "t", false⟩, none⟩ := rfl
  rw [heq, hunk] at hyn
  rcases hyn with h | h <;> exact absurd h (by decide)

/-- Claim C2 amended: the minimum-vote threshold is the fixed constant 5 for
every topic, and classification is entirely independent of the topic
descriptor (in particular of its sensitive flag): identical counts always
classify identically. -/
theorem C2_amended_insensitive :
    MIN_VOTES_THRESHOLD = 5 ∧
      ∀ (ys ns : Option ℕ) (t t2 : Option Topic) (c c2 : Option String),
        categorizeWarning ⟨ys, ns, t, c⟩ = categorizeWarning ⟨ys, ns, t2, c2⟩ :=
  ⟨rfl, fun _ _ _ _ _ _ => rfl⟩

/-- Claim C3: the code evaluated at a TopicVote with both count fields
missing.  The NaN total makes the threshold comparison false, both raw
comparisons false, and the result is mixed — not the unknown the claim
requires. -/
theorem C3_missing_counts_mixed :
    categorizeWarning ⟨none, none, some ⟨7, "t", "t", false⟩, none⟩ = Category.mixed ∧
      categorizeWarning ⟨none, none, some ⟨7, "t", "t", false⟩, none⟩ ≠ Category.unknown :=
  ⟨rfl, by decide⟩

/-- Claim C4: the code evaluated at the failing input — six non-pinned topics
all categorized yes, no pins.  The automatic list keeps all six entries,
exceeding the configured default display cap `DEFAULT_MAX_WARNINGS = 5`,
because the content script truncates at a hard-coded 10 and never reads the
stored cap. -/
theorem C4_cap_not_enforced :
    DEFAULT_MAX_WARNINGS < ((rank sixYesStats []).2).length ∧
      ((rank sixYesStats []).2).length = 6 := by
  decide

/-- Claim C5 counterexample: two pinned topics of equal category (yes), one
sensitive with 5 yes votes, one non-sensitive with 9; the pinned ordering puts
the non-sensitive topic first, so no sensitivity bonus exists. -/
theorem C5_counterexample :
    sensStat.topic.map Topic.isSensitive = some true ∧
    plainStat.topic.map Topic.isSensitive = some false ∧
    categorizeWarning sensStat = Category.yes ∧
    categorizeWarning plainStat = Category.yes ∧
    (rank [sensStat, plainStat] [1, 2]).1 = [plainStat, sensStat] := by
  decide

/-- Claim C5 amended: `sortRank` is the base rank alone — yes = 0, no = 1,
mixed and unknown = 2 — with no sensitivity bonus, and the pinned comparator
depends only on the categories and yes-counts, never on the topic descriptors
(so sensitivity cannot affect the ordering). -/
theorem C5_amended_sortRank :
    ((∀ s, categorizeWarning s = Category.yes → sortRank s = 0) ∧
     (∀ s, categorizeWarning s = Category.no → sortRank s = 1) ∧
     (∀ s, categorizeWarning s = Category.mixed ∨ categorizeWarning s = Category.unknown →
        sortRank s = 2)) ∧
    ∀ (ys ns ys2 ns2 : Option ℕ) (t t2 u u2 : Option Topic) (c c2 d d2 : Option String),
      pinnedCmp ⟨ys, ns, t, c⟩ ⟨ys2, ns2, u, d⟩ =
        pinnedCmp ⟨ys, ns, t2, c2⟩ ⟨ys2, ns2, u2, d2⟩ := by
  refine ⟨⟨?_, ?_, ?_⟩, ?_⟩
  · intro s h; simp [sortRank, h, warningOrder]
  · intro s h; simp [sortRank, h, warningOrder]
  · rintro s (h | h) <;> simp [sortRank, h, warningOrder]
  · intro ys ns ys2 ns2 t t2 u u2 c c2 d d2; rfl

/-- Witness for the amended C5 at the sensitive yes-stat. -/
theorem C5_amended_sortRank_witness : sortRank sensStat = 0 :=
  C5_amended_sortRank.1.1 sensStat (by decide)

/-- Claim C6: when the primary-id query returns at least one candidate, the
first candidate is accepted unconditionally unless both TMDB ids are present
(the candidate's one truthy) and disagree; in that conflicting case Tier 1 is
rejected and resolution equals what the later tiers alone produce. -/
theorem C6_tier1_accept_or_reject (imdbId : Option String) (tmdbId : Option ℕ)
    (isTv : Bool) (title year nativeTitle : Option String)
    (item : Item) (rest : List Item) (r2 r3 : Option SearchResult)
    (him : strTruthy imdbId = true) :
    (¬ tier1Conflict tmdbId item →
      findDtddMedia imdbId tmdbId isTv title year nativeTitle
        (some ⟨some (item :: rest)⟩) r2 r3 = some item) ∧
    (tier1Conflict tmdbId item →
      findDtddMedia imdbId tmdbId isTv title year nativeTitle
        (some ⟨some (item :: rest)⟩) r2 r3 =
      findDtddMedia imdbId tmdbId isTv title year nativeTitle none r2 r3) := by
  constructor
  · intro hno
    simp [findDtddMedia, him, hno]
  · intro hconf
    simp [findDtddMedia, him, hconf]

/-- Witness for C6 in the conflicting case: scraped TMDB id 3, candidate TMDB
id 2, so Tier 1 is rejected and resolution falls through to the later tiers. -/
theorem C6_tier1_witness :
    findDtddMedia (some "tt0000001") (some 3) false (some "X") (some "2020") none
      (some ⟨some [⟨1, "X", some 2, some 2020, some ⟨some "Movie"⟩⟩]⟩) none none =
    findDtddMedia (some "tt0000001") (some 3) false (some "X") (some "2020") none
      none none none :=
  (C6_tier1_accept_or_reject (some "tt0000001") (some 3) false (some "X") (some "2020")
      none ⟨1, "X", some 2, some 2020, some ⟨some "Movie"⟩⟩ [] none none (by decide)).2
    (by decide)

/-- Claim C7: any candidate whose kind label is present (truthy) and differs
from the expected kind is skipped entirely; in particular no candidate of kind
"TV Show" (the spec's "series") is ever returned when `isTv` is false, even
with matching title and year. -/
theorem C7_kind_mismatch_skipped (result : Option SearchResult) (tmdbId : Option ℕ)
    (title year : Option String) (isTv : Bool) (item : Item)
    (hm : matchDtddResult result tmdbId title year isTv = some item) :
    (∀ s : String, item.itemType.bind ItemType.name = some s → s ≠ "" →
        s = (if isTv then "TV Show" else "Movie")) ∧
    (isTv = false → item.itemType.bind ItemType.name ≠ some "TV Show") := by
  have hloop : ∀ s : String, item.itemType.bind ItemType.name = some s → s ≠ "" →
      s = (if isTv then "TV Show" else "Movie") := by
    rcases result with _ | ⟨_ | items⟩
    · simp [matchDtddResult] at hm
    · simp [matchDtddResult] at hm
    · rcases items with _ | ⟨hd, tl⟩
      · simp [matchDtddResult] at hm
      · simp only [matchDtddResult] at hm
        exact matchLoop_type_eq _ tmdbId title year (hd :: tl) item hm
  refine ⟨hloop, ?_⟩
  intro hTv hcontra
  have hs := hloop "TV Show" hcontra (by decide)
  rw [hTv] at hs
  simp only [if_neg Bool.false_ne_true, Bool.false_eq_true, if_false] at hs
  exact absurd hs (by decide)

/-- Witness for C7: a concrete movie search returning a "Movie"-typed
candidate; the returned candidate's kind label is not "TV Show". -/
theorem C7_kind_witness :
    (⟨1, "X", none, some 2020, some ⟨some "Movie"⟩⟩ : Item).itemType.bind ItemType.name ≠
      some "TV Show" :=
  (C7_kind_mismatch_skipped (some ⟨some [⟨1, "X", none, some 2020, some ⟨some "Movie"⟩⟩]⟩)
      none (some "X") (some "2020") false ⟨1, "X", none, some 2020, some ⟨some "Movie"⟩⟩
      (by decide)).2 rfl

/-- Claim C10: `matchDtddResult` never fabricates a candidate — a non-null
return is an element of the input's items list — and a null result, a missing
items field, or an empty items list each yield null rather than an error. -/
theorem C10_match_total (result : Option SearchResult) (tmdbId : Option ℕ)
    (title year : Option String) (isTv : Bool) :
    (∀ item : Item, matchDtddResult result tmdbId title year isTv = some item →
        ∃ items : List Item, result = some ⟨some items⟩ ∧ item ∈ items) ∧
    (result = none → matchDtddResult result tmdbId title year isTv = none) ∧
    (result = some ⟨none⟩ → matchDtddResult result tmdbId title year isTv = none) ∧
    (result = some ⟨some []⟩ → matchDtddResult result tmdbId title year isTv = none) := by
  refine ⟨?_, ?_, ?_, ?_⟩
  · intro item h
    rcases result with _ | ⟨_ | items⟩
    · simp [matchDtddResult] at h
    · simp [matchDtddResult] at h
    · rcases items with _ | ⟨hd, tl⟩
      · simp [matchDtddResult] at h
      · refine ⟨hd :: tl, rfl, ?_⟩
        simp only [matchDtddResult] at h
        exact matchLoop_mem _ tmdbId title year (hd :: tl) item h
  · rintro rfl; rfl
  · rintro rfl; rfl
  · rintro rfl; rfl

/-- Witness for C10: a concrete one-item search in which the match is returned
and is the listed item. -/
theorem C10_match_witness :
    ∃ items : List Item,
      (some ⟨some [⟨2, "Y", none, some 1999, none⟩]⟩ : Option SearchResult) =
          some ⟨some items⟩ ∧
        (⟨2, "Y", none, some 1999, none⟩ : Item) ∈ items :=
  (C10_match_total (some ⟨some [⟨2, "Y", none, some 1999, none⟩]⟩) none (some "Y")
      (some "1999") false).1 ⟨2, "Y", none, some 1999, none⟩ (by decide)

/-- Claim C8: every TopicVote whose total is below the minimum-vote threshold
— in particular yes = no = 0 — is classified unknown, whatever the topic
descriptor (hence whatever its sensitive flag). -/
theorem C8_below_threshold_unknown (y n : ℕ) (t : Option Topic) (c : Option String)
    (h : y + n < MIN_VOTES_THRESHOLD) :
    categorizeWarning ⟨some y, some n, t, c⟩ = Category.unknown := by
  have h5 : y + n < 5 := h
  rw [categorize_eval, if_pos h5]

/-- Witness for C8 at yes = no = 0. -/
theorem C8_below_threshold_witness :
    categorizeWarning ⟨some 0, some 0, none, none⟩ = Category.unknown :=
  C8_below_threshold_unknown 0 0 none none (by decide)

/-- Claim C9: holding the total fixed, increasing the yes-count never moves
the category from yes to no. -/
theorem C9_yes_monotone (y n y2 n2 : ℕ) (t : Option Topic) (c c2 : Option String)
    (hsum : y + n = y2 + n2) (hlt : y < y2)
    (hyes : categorizeWarning ⟨some y, some n, t, c⟩ = Category.yes) :
    categorizeWarning ⟨some y2, some n2, t, c2⟩ ≠ Category.no := by
  rw [categorize_eval] at hyes ⊢
  by_cases h1 : y + n < 5
  · rw [if_pos h1] at hyes; exact absurd hyes (by decide)
  · rw [if_neg h1] at hyes
    by_cases h2 : n < y
    · rw [if_neg (by omega : ¬ y2 + n2 < 5), if_pos (by omega : n2 < y2)]
      decide
    · rw [if_neg h2] at hyes
      by_cases h3 : y < n
      · rw [if_pos h3] at hyes; exact absurd hyes (by decide)
      · rw [if_neg h3] at hyes; exact absurd hyes (by decide)

/-- Witness for C9 at (yes, no) = (3, 2) against (4, 1). -/
theorem C9_yes_monotone_witness :
    categorizeWarning ⟨some 4, some 1, none, none⟩ ≠ Category.no :=
  C9_yes_monotone 3 2 4 1 none none none (by decide) (by decide) (by decide)

end DTDD
